import Mathlib

/-!
Verification of the snowFX plugin suite (spiral curve generators, snowflake
particle geometry and keyframe animation helpers).

The host application's command API is opaque; the shallow embedding below
translates the repository's own logic: the pure numeric formulas
(emission-distance interpolation, tangent-weight computation, spiral
coordinate generation), the validation and error-handling control flow of
the GUI actions, and the list bookkeeping of the particle factories.
Host calls that create or mutate scene objects are modelled by the values
they contribute (point lists, key lists, event traces, generated names).
-/

namespace SnowFX

/-! Section: particleFX.emitCurve distance interpolation along the emission curve

Source: src/scripts/particleFX.py lines 202-205.  `launchTime` is drawn from
`[0, duration]`; the emission distance is interpolated between `minDistance`
(ends of the curve) and `maxDistance` (middle of the curve). -/

/-- Embeds the distance computation of `emitCurve`:
if `launchTime/duration <= 0.5`:
`distance = (launchTime/duration)*2*(maxDistance-minDistance)+minDistance`,
else
`distance = (1-(launchTime/duration))*2*(maxDistance-minDistance)+minDistance`. -/
def emitCurveDistance (launchTime duration maxDistance minDistance : ℚ) : ℚ :=
  if launchTime / duration ≤ 0.5 then
    launchTime / duration * 2 * (maxDistance - minDistance) + minDistance
  else
    (1 - launchTime / duration) * 2 * (maxDistance - minDistance) + minDistance

/-! Section: particleFX.particles.explode tangent angles and weights

Source: src/scripts/particleFX.py lines 64-88.  After keying the start and
end positions, `explode` computes, for each translate channel, the
out-tangent angle and weight of the start key from the channel displacement,
and sets the in-tangent of the end key to angle 0 and weight `duration/1.5`. -/

/-- Tangent settings `explode` applies to one translate channel: the
out-tangent (angle, weight) of the start key and the in-tangent
(angle, weight) of the end key. -/
structure TangentSet where
  outAngle : ℚ
  outWeight : ℚ
  inAngle : ℚ
  inWeight : ℚ
  deriving DecidableEq, Repr

/-- Embeds the per-channel tangent computation of `explode`:
`weight=(end-start)/1.5; if weight<0: angle=-80; weight=-weight else: angle=80`,
then `keyTangent(..., oa=angle, ow=weight)` on the start key and
`keyTangent(..., ia=0, iw=duration/1.5)` on the end key. -/
def explodeChannel (startV endV duration : ℚ) : TangentSet :=
  let weight := (endV - startV) / 1.5
  if weight < 0 then
    { outAngle := -80, outWeight := -weight, inAngle := 0, inWeight := duration / 1.5 }
  else
    { outAngle := 80, outWeight := weight, inAngle := 0, inWeight := duration / 1.5 }

/-- Result of `particles.explode`: the frames of the two keys it creates and
the tangent settings for the three translate channels.  `startVals` are the
channel values read at frame `start` (`getAttr` before the move), `endVals`
the values read after moving the particle (`getAttr` at `start+duration`). -/
structure ExplodeResult where
  startKeyTime : ℚ
  endKeyTime : ℚ
  tanX : TangentSet
  tanY : TangentSet
  tanZ : TangentSet
  deriving DecidableEq, Repr

/-- Embeds `particles.explode(start, duration, distance)`: keys the position
at `start` and at `start+duration` and applies `explodeChannel` to each
translate channel. -/
def explode (start duration : ℚ) (startVals endVals : ℚ × ℚ × ℚ) : ExplodeResult :=
  { startKeyTime := start
    endKeyTime := start + duration
    tanX := explodeChannel startVals.1 endVals.1 duration
    tanY := explodeChannel startVals.2.1 endVals.2.1 duration
    tanZ := explodeChannel startVals.2.2 endVals.2.2 duration }

/-- Specification of one channel after `explode`, as the claim states it:
out-weight `|end-start|/1.5`, out-angle `+80` for a non-negative displacement
and `-80` for a negative one, in-tangent angle `0` and weight `duration/1.5`. -/
def channelSpec (startV endV duration : ℚ) (ts : TangentSet) : Prop :=
  ts.outWeight = |endV - startV| / 1.5 ∧
  ts.outAngle = (if endV - startV < 0 then -80 else 80) ∧
  ts.inAngle = 0 ∧
  ts.inWeight = duration / 1.5

/-! Section: particleFX.particles.death

Source: src/scripts/particleFX.py lines 144-159.  `death` first validates the
instance fields `lifeTime` and `fadeOut`, then keys the scale and visibility
channels.  A key is modelled as (attribute, value, frame). -/

/-- Embeds `particles.death()`: returns the updated `(lifeTime, fadeOut)`
fields together with the list of keys it sets, each `(attribute, value, frame)`. -/
def death (born lifeTime fadeOut : ℤ) : (ℤ × ℤ) × List (String × ℤ × ℤ) :=
  let lt1 := if lifeTime ≤ 0 then 2 else lifeTime
  let fo1 := if fadeOut < 0 then 0 else fadeOut
  let fo2 := if fo1 > lt1 then lt1 else fo1
  ((lt1, fo2),
    [("scale", 1, born + lt1 - fo2),
     ("scale", 0, born + lt1 + 1),
     ("visibility", 1, born + lt1),
     ("visibility", 0, born + lt1 + 1)])

end SnowFX

namespace SnowFX

/-- Branch form of `emitCurveDistance` with the threshold written `1/2`. -/
theorem emitCurveDistance_eq (t d maxD minD : ℚ) :
    emitCurveDistance t d maxD minD =
      if t / d ≤ 1 / 2 then t / d * 2 * (maxD - minD) + minD
      else (1 - t / d) * 2 * (maxD - minD) + minD := by
  have hhalf : (0.5 : ℚ) = 1 / 2 := by norm_num
  simp only [emitCurveDistance, hhalf]

/-- C1: in `emitCurve`, for every `duration > 0` and `launchTime ∈ [0, duration]`,
the emission distance equals `minDistance + 2*(launchTime/duration)*(maxDistance-minDistance)`
when `launchTime/duration ≤ 0.5` and
`minDistance + 2*(1-launchTime/duration)*(maxDistance-minDistance)` otherwise;
hence it equals `minDistance` at `launchTime = 0` and `launchTime = duration`,
equals `maxDistance` at `launchTime = duration/2`, and is symmetric under
`launchTime ↦ duration - launchTime`. -/
theorem emitCurveDistance_spec (t d maxD minD : ℚ)
    (hd : 0 < d) (h0 : 0 ≤ t) (h1 : t ≤ d) :
    (t / d ≤ 1 / 2 →
      emitCurveDistance t d maxD minD = minD + 2 * (t / d) * (maxD - minD)) ∧
    (1 / 2 < t / d →
      emitCurveDistance t d maxD minD = minD + 2 * (1 - t / d) * (maxD - minD)) ∧
    emitCurveDistance 0 d maxD minD = minD ∧
    emitCurveDistance d d maxD minD = minD ∧
    emitCurveDistance (d / 2) d maxD minD = maxD ∧
    emitCurveDistance (d - t) d maxD minD = emitCurveDistance t d maxD minD := by
  have hd' : d ≠ 0 := ne_of_gt hd
  refine ⟨?_, ?_, ?_, ?_, ?_, ?_⟩
  · intro h
    rw [emitCurveDistance_eq, if_pos h]
    ring
  · intro h
    rw [emitCurveDistance_eq, if_neg (not_le_of_lt h)]
    ring
  · rw [emitCurveDistance_eq, zero_div, if_pos (by norm_num)]
    ring
  · rw [emitCurveDistance_eq, div_self hd', if_neg (by norm_num)]
    ring
  · have hhalf : d / 2 / d = 1 / 2 := by
      field_simp
      ring
    rw [emitCurveDistance_eq, hhalf, if_pos le_rfl]
    ring
  · have hsub : (d - t) / d = 1 - t / d := by
      field_simp
    rw [emitCurveDistance_eq, emitCurveDistance_eq t, hsub]
    by_cases h : t / d ≤ 1 / 2 <;> by_cases h2 : (1 : ℚ) - t / d ≤ 1 / 2
    · rw [if_pos h2, if_pos h]
      have heq : t / d = 1 / 2 := by linarith
      rw [heq]; ring
    · rw [if_neg h2, if_pos h]; ring
    · rw [if_pos h2, if_neg h]
    · exact absurd (by linarith : t / d ≤ 1 / 2) h

/-- Witness for C1 at `launchTime = 1`, `duration = 4`. -/
theorem emitCurveDistance_spec_witness :
    (0 : ℚ) < 4 ∧ (0 : ℚ) ≤ 1 ∧ (1 : ℚ) ≤ 4 ∧
    ((1 : ℚ) / 4 ≤ 1 / 2 →
      emitCurveDistance 1 4 3 1 = 1 + 2 * ((1 : ℚ) / 4) * (3 - 1)) ∧
    ((1 : ℚ) / 2 < 1 / 4 →
      emitCurveDistance 1 4 3 1 = 1 + 2 * (1 - (1 : ℚ) / 4) * (3 - 1)) ∧
    emitCurveDistance 0 4 3 1 = 1 ∧
    emitCurveDistance 4 4 3 1 = 1 ∧
    emitCurveDistance ((4 : ℚ) / 2) 4 3 1 = 3 ∧
    emitCurveDistance ((4 : ℚ) - 1) 4 3 1 = emitCurveDistance 1 4 3 1 :=
  ⟨by norm_num, by norm_num, by norm_num,
    emitCurveDistance_spec 1 4 3 1 (by norm_num) (by norm_num) (by norm_num)⟩

/-- Sign of the per-channel tangent weight agrees with the sign of the
displacement, since dividing by the positive constant `1.5` preserves it. -/
theorem explodeChannel_weight_neg_iff (startV endV : ℚ) :
    (endV - startV) / 1.5 < 0 ↔ endV - startV < 0 := by
  constructor
  · intro h
    by_contra hge
    exact absurd (div_nonneg (not_lt.mp hge) (by norm_num)) (not_le.mpr h)
  · intro h
    exact div_neg_of_neg_of_pos h (by norm_num)

/-- C2: for every `start`, `duration` and channel values, `particles.explode`
sets on each translate channel the out-tangent of the start key to weight
`|end - start|/1.5`, with angle `+80` for a non-negative displacement
`end - start` and `-80` (weight negated to be positive) for a negative one,
and sets the in-tangent of the end key, keyed at frame `start + duration`,
to angle `0` and weight `duration/1.5`. -/
theorem explode_spec (start duration : ℚ) (startVals endVals : ℚ × ℚ × ℚ) :
    (explode start duration startVals endVals).endKeyTime = start + duration ∧
    channelSpec startVals.1 endVals.1 duration
      (explode start duration startVals endVals).tanX ∧
    channelSpec startVals.2.1 endVals.2.1 duration
      (explode start duration startVals endVals).tanY ∧
    channelSpec startVals.2.2 endVals.2.2 duration
      (explode start duration startVals endVals).tanZ := by
  have key : ∀ s e : ℚ, channelSpec s e duration (explodeChannel s e duration) := by
    intro s e
    unfold channelSpec explodeChannel
    by_cases h : e - s < 0
    · rw [if_pos ((explodeChannel_weight_neg_iff s e).mpr h), if_pos h]
      refine ⟨?_, rfl, rfl, rfl⟩
      rw [abs_of_neg h]
      ring
    · rw [if_neg (fun hc => h ((explodeChannel_weight_neg_iff s e).mp hc)), if_neg h]
      refine ⟨?_, rfl, rfl, rfl⟩
      rw [abs_of_nonneg (not_lt.mp h)]
  exact ⟨rfl, key _ _, key _ _, key _ _⟩

/-- C8: after `particles.death()` the instance fields satisfy
`lifeTime > 0` and `0 ≤ fadeOut ≤ lifeTime` (a `lifeTime ≤ 0` is replaced by
`2`, a negative `fadeOut` by `0`, and a `fadeOut` exceeding `lifeTime`
is clamped to `lifeTime`), and the keys set are: scale `1` at
`born + lifeTime - fadeOut`, scale `0` at `born + lifeTime + 1`,
visibility `1` at `born + lifeTime`, visibility `0` at
`born + lifeTime + 1` (fields post-validation). -/
theorem death_spec (born lifeTime fadeOut : ℤ) :
    0 < (death born lifeTime fadeOut).1.1 ∧
    0 ≤ (death born lifeTime fadeOut).1.2 ∧
    (death born lifeTime fadeOut).1.2 ≤ (death born lifeTime fadeOut).1.1 ∧
    (death born lifeTime fadeOut).1.1 = (if lifeTime ≤ 0 then 2 else lifeTime) ∧
    (death born lifeTime fadeOut).1.2 =
      min (max fadeOut 0) (death born lifeTime fadeOut).1.1 ∧
    (death born lifeTime fadeOut).2 =
      [("scale", 1,
          born + (death born lifeTime fadeOut).1.1 - (death born lifeTime fadeOut).1.2),
       ("scale", 0, born + (death born lifeTime fadeOut).1.1 + 1),
       ("visibility", 1, born + (death born lifeTime fadeOut).1.1),
       ("visibility", 0, born + (death born lifeTime fadeOut).1.1 + 1)] := by
  unfold death
  split_ifs <;> simp_all <;> omega

end SnowFX

namespace SnowFX

/-! Section: makeSnowflakes.py, the particle factories

Source: src/scripts/makeSnowflakes.py lines 135-218 and
src/scripts/snowflakeGUI.py lines 858-880.  The host calls that build
geometry and shading nodes return fresh object names; they are modelled by
abstract name generators `mkSG`, `mkShard`, `mkFlake` (the name the host
returns for the i-th created shading group / shard / snowflake). -/

/-- Embeds `createColourList(rgb1, rgb2, transparency, glow, number)`: the
loop `for i in range(0, number)` creates one phong shader and one shading
group per iteration and returns the list of shading groups.  Colour, alpha
and glow only configure the host nodes and do not affect the returned list. -/
def createColourList (mkSG : ℕ → String) (number : ℕ) : List String :=
  (List.range number).map mkSG

/-- One evaluation of the progress-step expression `100/number` inside the
factory loops: Python integer division, which raises `ZeroDivisionError`
when `number = 0` (modelled as `none`). -/
def progressStep (number : ℕ) : Option ℕ :=
  if number = 0 then none else some (100 / number)

/-- Result of a particle factory run: the shading groups created, the object
names returned, and the progress-step expressions evaluated (one per loop
iteration). -/
structure FactoryResult where
  sgList : List String
  names : List String
  steps : List (Option ℕ)
  deriving DecidableEq, Repr

/-- Embeds `makeShards(number, ...)`: creates `createColourList(..., 5)`,
then runs `while count < number`, each iteration creating one octahedron
(`polyPlatonicSolid`), assigning a shading group and stepping the progress
window by `100/number`.  Radius and colour randomness only configure host
nodes and are abstracted away; `mkShard i` is the name of the shard made in
iteration `i`. -/
def makeShards (mkSG mkShard : ℕ → String) (number : ℕ) : FactoryResult :=
  { sgList := createColourList mkSG 5
    names := (List.range number).map mkShard
    steps := (List.range number).map (fun _ => progressStep number) }

/-- Embeds `makeSnowflakes(number, ...)`: identical loop structure to
`makeShards`, with `makeFlake` as the per-iteration constructor. -/
def makeSnowflakes (mkSG mkFlake : ℕ → String) (number : ℕ) : FactoryResult :=
  { sgList := createColourList mkSG 5
    names := (List.range number).map mkFlake
    steps := (List.range number).map (fun _ => progressStep number) }

/-- Embeds `snowflakeUI.makeAllParticles`: requests `shardNumber` shards and
`flakeNumber + 1` snowflakes, concatenates `flakes + shards`, deletes
`particles[0]` from the scene and returns the slice `particles[1:]`. -/
def makeAllParticles (mkSG mkShard mkFlake : ℕ → String)
    (flakeNumber shardNumber : ℕ) : List String :=
  let shards := (makeShards mkSG mkShard shardNumber).names
  let flakes := (makeSnowflakes mkSG mkFlake (flakeNumber + 1)).names
  let particles := flakes ++ shards
  particles.drop 1

end SnowFX

namespace SnowFX

/-- C10: for every `number ≥ 0`, `makeShards` returns exactly `number` shard
names and always creates exactly 5 shading groups; when `number = 0` the
while-loop body never executes, so the progress-step expression `100/number`
is never evaluated and no division by zero occurs (no `none` among the
evaluated steps); `makeSnowflakes` has the same property. -/
theorem makeShards_makeSnowflakes_safe (mkSG mkShard mkFlake : ℕ → String)
    (number : ℕ) :
    (makeShards mkSG mkShard number).names.length = number ∧
    (makeShards mkSG mkShard number).sgList.length = 5 ∧
    (number = 0 → (makeShards mkSG mkShard number).steps = []) ∧
    Option.none ∉ (makeShards mkSG mkShard number).steps ∧
    (makeSnowflakes mkSG mkFlake number).names.length = number ∧
    (makeSnowflakes mkSG mkFlake number).sgList.length = 5 ∧
    (number = 0 → (makeSnowflakes mkSG mkFlake number).steps = []) ∧
    Option.none ∉ (makeSnowflakes mkSG mkFlake number).steps := by
  have hstep : Option.none ∉ (List.range number).map (fun _ => progressStep number) := by
    intro hmem
    rcases List.mem_map.mp hmem with ⟨i, hi, heq⟩
    have hpos : number ≠ 0 := fun h0 => by
      rw [h0] at hi
      exact absurd hi (by simp)
    rw [progressStep, if_neg hpos] at heq
    exact Option.noConfusion heq
  refine ⟨by simp [makeShards], by simp [makeShards, createColourList],
      fun h0 => by simp [makeShards, h0], hstep,
      by simp [makeSnowflakes], by simp [makeSnowflakes, createColourList],
      fun h0 => by simp [makeSnowflakes, h0], hstep⟩

/-- Witness for C10 at `number = 0` (loop body never runs, steps empty),
applying the theorem at a concrete name generator and discharging the
`number = 0` implications. -/
theorem makeShards_makeSnowflakes_safe_witness :
    (makeShards (fun i => toString i) (fun i => toString i) 0).names.length = 0 ∧
    (makeShards (fun i => toString i) (fun i => toString i) 0).sgList.length = 5 ∧
    (makeShards (fun i => toString i) (fun i => toString i) 0).steps = [] ∧
    Option.none ∉ (makeShards (fun i => toString i) (fun i => toString i) 0).steps ∧
    (makeSnowflakes (fun i => toString i) (fun i => toString i) 0).names.length = 0 ∧
    (makeSnowflakes (fun i => toString i) (fun i => toString i) 0).sgList.length = 5 ∧
    (makeSnowflakes (fun i => toString i) (fun i => toString i) 0).steps = [] ∧
    Option.none ∉ (makeSnowflakes (fun i => toString i) (fun i => toString i) 0).steps := by
  obtain ⟨h1, h2, h3, h4, h5, h6, h7, h8⟩ :=
    makeShards_makeSnowflakes_safe (fun i => toString i) (fun i => toString i)
      (fun i => toString i) 0
  exact ⟨h1, h2, h3 rfl, h4, h5, h6, h7 rfl, h8⟩

/-- C9: for every `flakeNumber ≥ 0` and `shardNumber ≥ 0` (with the host
returning distinct names), `makeAllParticles` requests `shardNumber` shards
and `flakeNumber + 1` snowflakes, deletes the first snowflake of the
combined list, and returns the remaining snowflakes followed by the shards:
the result has exactly `flakeNumber + shardNumber` names and does not
contain the deleted object `mkFlake 0`. -/
theorem makeAllParticles_spec (mkSG mkShard mkFlake : ℕ → String)
    (flakeNumber shardNumber : ℕ)
    (hnodup : ((makeSnowflakes mkSG mkFlake (flakeNumber + 1)).names ++
        (makeShards mkSG mkShard shardNumber).names).Nodup) :
    makeAllParticles mkSG mkShard mkFlake flakeNumber shardNumber =
      (makeSnowflakes mkSG mkFlake (flakeNumber + 1)).names.drop 1 ++
        (makeShards mkSG mkShard shardNumber).names ∧
    ((makeSnowflakes mkSG mkFlake (flakeNumber + 1)).names ++
        (makeShards mkSG mkShard shardNumber).names).head? = some (mkFlake 0) ∧
    (makeAllParticles mkSG mkShard mkFlake flakeNumber shardNumber).length =
      flakeNumber + shardNumber ∧
    mkFlake 0 ∉ makeAllParticles mkSG mkShard mkFlake flakeNumber shardNumber := by
  have hflakes : (makeSnowflakes mkSG mkFlake (flakeNumber + 1)).names =
      mkFlake 0 :: ((List.range flakeNumber).map Nat.succ).map mkFlake := by
    simp [makeSnowflakes, List.range_succ_eq_map]
  have hresult : makeAllParticles mkSG mkShard mkFlake flakeNumber shardNumber =
      ((List.range flakeNumber).map Nat.succ).map mkFlake ++
        (makeShards mkSG mkShard shardNumber).names := by
    rw [makeAllParticles, hflakes]
    rfl
  refine ⟨?_, ?_, ?_, ?_⟩
  · rw [hresult, hflakes]
    rfl
  · rw [hflakes]
    rfl
  · rw [hresult]
    simp [makeShards]
  · rw [hflakes] at hnodup
    rw [hresult]
    exact (List.nodup_cons.mp (by simpa using hnodup)).1

/-- Witness for C9 at one flake and one shard, with distinct concrete names. -/
theorem makeAllParticles_spec_witness :
    (((makeSnowflakes (fun i => "sg" ++ toString i) (fun i => "flake" ++ toString i) (1 + 1)).names ++
        (makeShards (fun i => "sg" ++ toString i) (fun i => "shard" ++ toString i) 1).names).Nodup) ∧
    (makeAllParticles (fun i => "sg" ++ toString i) (fun i => "shard" ++ toString i)
        (fun i => "flake" ++ toString i) 1 1 =
      (makeSnowflakes (fun i => "sg" ++ toString i) (fun i => "flake" ++ toString i) (1 + 1)).names.drop 1 ++
        (makeShards (fun i => "sg" ++ toString i) (fun i => "shard" ++ toString i) 1).names ∧
    ((makeSnowflakes (fun i => "sg" ++ toString i) (fun i => "flake" ++ toString i) (1 + 1)).names ++
        (makeShards (fun i => "sg" ++ toString i) (fun i => "shard" ++ toString i) 1).names).head? =
      some ((fun i => "flake" ++ toString i) 0) ∧
    (makeAllParticles (fun i => "sg" ++ toString i) (fun i => "shard" ++ toString i)
        (fun i => "flake" ++ toString i) 1 1).length = 1 + 1 ∧
    (fun i => "flake" ++ toString i) 0 ∉
      makeAllParticles (fun i => "sg" ++ toString i) (fun i => "shard" ++ toString i)
        (fun i => "flake" ++ toString i) 1 1) :=
  ⟨by decide,
    makeAllParticles_spec (fun i => "sg" ++ toString i) (fun i => "shard" ++ toString i)
      (fun i => "flake" ++ toString i) 1 1 (by decide)⟩

end SnowFX

namespace SnowFX

/-! Section: snowflakeGUI.py, the user-triggered generate actions

Source: src/scripts/snowflakeGUI.py lines 690-857.  Each `run*` action first
validates its input fields (each failed check opens one error popup and
returns), then reloads the file (except `runFlakeGen`), opens the progress
window, and runs the generation code inside a `try:` block; on any exception
the handler writes to stderr, closes the progress window and opens the
error popup.  The trace of host calls is modelled as a list of events;
the generation work itself is abstracted by an `Except` outcome. -/

/-- Host calls a generate action may perform, in order of execution. -/
inductive HostEvent where
  | reloadFile
  | openProgress
  | closeProgress
  | errorPopup (msg : String)
  | generate
  | stderrWrite
  | makeGroup
  | parentParticle (name : String)
  deriving DecidableEq, Repr

/-- Recognises the event that starts the generation work. -/
def isGenerate : HostEvent → Bool
  | HostEvent.generate => true
  | _ => false

/-- Message of the popup raised by the broad `except` handler of every
`run*` action. -/
def somethingWentWrong : String :=
  "Something went wrong :( \n Check the script editor for detials"

/-- Trace of the `try:`/`except:` tail shared by the four generate actions:
the generation code runs once; on success the particles are grouped,
parented and the progress window is closed; on an exception the handler
writes stderr, closes the progress window and opens the error popup. -/
def generateTail (gen : Except String (List String)) : List HostEvent :=
  match gen with
  | Except.ok ps =>
      HostEvent.generate :: HostEvent.makeGroup ::
        (ps.map (fun p => HostEvent.parentParticle p) ++ [HostEvent.closeProgress])
  | Except.error _ =>
      [HostEvent.generate, HostEvent.stderrWrite, HostEvent.closeProgress,
       HostEvent.errorPopup somethingWentWrong]

/-- Embeds `snowflakeUI.runEmitCurve`: the four validation checks in source
order (`endFrame <= startFrame`, `lifeTime <= 0`, `fadeOut > lifeTime`,
`duplicateCurve` on the source-curve text raising), then
`particleFX.reloadFile()`, the progress window, and the guarded generation. -/
def runEmitCurve (startFrame endFrame lifeTime fadeOut : ℤ)
    (curveDuplicable : Bool) (gen : Except String (List String)) : List HostEvent :=
  if endFrame ≤ startFrame then
    [HostEvent.errorPopup "End Frame must be after Start Frame"]
  else if lifeTime ≤ 0 then
    [HostEvent.errorPopup "Particles have to have a lifetime"]
  else if lifeTime < fadeOut then
    [HostEvent.errorPopup "Lifetime must be larger than fadeout time"]
  else if curveDuplicable = false then
    [HostEvent.errorPopup "Choose a source curve"]
  else
    HostEvent.reloadFile :: HostEvent.openProgress :: generateTail gen

/-- Embeds `snowflakeUI.runCurveFollow`: checks `endFrame <= startFrame` and
`nose + tail > length`, then the duplicable-curve check, then the same
reload/progress/guarded-generation sequence. -/
def runCurveFollow (startFrame endFrame noseLen tailLen trailLen : ℤ)
    (curveDuplicable : Bool) (gen : Except String (List String)) : List HostEvent :=
  if endFrame ≤ startFrame then
    [HostEvent.errorPopup "End Frame must be after Start Frame"]
  else if trailLen < noseLen + tailLen then
    [HostEvent.errorPopup "Nose and Tail must be less than Trail Length"]
  else if curveDuplicable = false then
    [HostEvent.errorPopup "Choose a source curve"]
  else
    HostEvent.reloadFile :: HostEvent.openProgress :: generateTail gen

/-- Embeds `snowflakeUI.runPlaneEmit`: the frame/lifetime/fadeout checks of
`runEmitCurve`, then `polyEvaluate` on the source plane (raising models a
non-plane; a vertex count other than 4 is rejected), then the same
reload/progress/guarded-generation sequence. -/
def runPlaneEmit (startFrame endFrame lifeTime fadeOut : ℤ)
    (planeEvaluable : Bool) (vtxCount : ℤ)
    (gen : Except String (List String)) : List HostEvent :=
  if endFrame ≤ startFrame then
    [HostEvent.errorPopup "End Frame must be after Start Frame"]
  else if lifeTime ≤ 0 then
    [HostEvent.errorPopup "Particles have to have a lifetime"]
  else if lifeTime < fadeOut then
    [HostEvent.errorPopup "Lifetime must be larger than fadeout time"]
  else if planeEvaluable = false then
    [HostEvent.errorPopup "Choose a source plane"]
  else if vtxCount ≠ 4 then
    [HostEvent.errorPopup "Select an unsubdivided plane"]
  else
    HostEvent.reloadFile :: HostEvent.openProgress :: generateTail gen

/-- Embeds `snowflakeUI.runFlakeGen`: no validation and no file reload; the
progress window is opened and the generation (snowflake creation, the move
loop, grouping) runs guarded by the same broad handler. -/
def runFlakeGen (gen : Except String (List String)) : List HostEvent :=
  HostEvent.openProgress :: generateTail gen

end SnowFX

namespace SnowFX

/-- C5: for every user-triggered generate action (`runEmitCurve`,
`runCurveFollow`, `runPlaneEmit`, `runFlakeGen`), if the generation code
raises any exception, the handler catches it at the top of the action,
closes the progress window and surfaces the error via a modal popup,
performing no retry or other recovery (the generation is attempted exactly
once and the action ends with the popup). -/
theorem run_actions_exception_spec
    (startFrame endFrame lifeTime fadeOut : ℤ)
    (noseLen tailLen trailLen : ℤ) (vtxCount : ℤ) (e : String)
    (hframe : startFrame < endFrame) (hlife : 0 < lifeTime)
    (hfade : fadeOut ≤ lifeTime) (htrail : noseLen + tailLen ≤ trailLen)
    (hvtx : vtxCount = 4) :
    runEmitCurve startFrame endFrame lifeTime fadeOut true (Except.error e) =
      [HostEvent.reloadFile, HostEvent.openProgress, HostEvent.generate,
       HostEvent.stderrWrite, HostEvent.closeProgress,
       HostEvent.errorPopup somethingWentWrong] ∧
    runCurveFollow startFrame endFrame noseLen tailLen trailLen true (Except.error e) =
      [HostEvent.reloadFile, HostEvent.openProgress, HostEvent.generate,
       HostEvent.stderrWrite, HostEvent.closeProgress,
       HostEvent.errorPopup somethingWentWrong] ∧
    runPlaneEmit startFrame endFrame lifeTime fadeOut true vtxCount (Except.error e) =
      [HostEvent.reloadFile, HostEvent.openProgress, HostEvent.generate,
       HostEvent.stderrWrite, HostEvent.closeProgress,
       HostEvent.errorPopup somethingWentWrong] ∧
    runFlakeGen (Except.error e) =
      [HostEvent.openProgress, HostEvent.generate, HostEvent.stderrWrite,
       HostEvent.closeProgress, HostEvent.errorPopup somethingWentWrong] ∧
    (runEmitCurve startFrame endFrame lifeTime fadeOut true
        (Except.error e)).countP isGenerate = 1 ∧
    (runCurveFollow startFrame endFrame noseLen tailLen trailLen true
        (Except.error e)).countP isGenerate = 1 ∧
    (runPlaneEmit startFrame endFrame lifeTime fadeOut true vtxCount
        (Except.error e)).countP isGenerate = 1 ∧
    (runFlakeGen (Except.error e)).countP isGenerate = 1 := by
  have hf : ¬endFrame ≤ startFrame := not_le.mpr hframe
  have hl : ¬lifeTime ≤ 0 := not_le.mpr hlife
  have hfo : ¬lifeTime < fadeOut := not_lt.mpr hfade
  have ht : ¬trailLen < noseLen + tailLen := not_lt.mpr htrail
  have hv : ¬vtxCount ≠ 4 := not_not.mpr hvtx
  have hEmit : runEmitCurve startFrame endFrame lifeTime fadeOut true (Except.error e) =
      [HostEvent.reloadFile, HostEvent.openProgress, HostEvent.generate,
       HostEvent.stderrWrite, HostEvent.closeProgress,
       HostEvent.errorPopup somethingWentWrong] := by
    rw [runEmitCurve, if_neg hf, if_neg hl, if_neg hfo,
      if_neg (by simp : ¬(true = false))]
    rfl
  have hFollow : runCurveFollow startFrame endFrame noseLen tailLen trailLen true
      (Except.error e) =
      [HostEvent.reloadFile, HostEvent.openProgress, HostEvent.generate,
       HostEvent.stderrWrite, HostEvent.closeProgress,
       HostEvent.errorPopup somethingWentWrong] := by
    rw [runCurveFollow, if_neg hf, if_neg ht, if_neg (by simp : ¬(true = false))]
    rfl
  have hPlane : runPlaneEmit startFrame endFrame lifeTime fadeOut true vtxCount
      (Except.error e) =
      [HostEvent.reloadFile, HostEvent.openProgress, HostEvent.generate,
       HostEvent.stderrWrite, HostEvent.closeProgress,
       HostEvent.errorPopup somethingWentWrong] := by
    rw [runPlaneEmit, if_neg hf, if_neg hl, if_neg hfo,
      if_neg (by simp : ¬(true = false)), if_neg hv]
    rfl
  refine ⟨hEmit, hFollow, hPlane, rfl, ?_, ?_, ?_, rfl⟩
  · rw [hEmit]; rfl
  · rw [hFollow]; rfl
  · rw [hPlane]; rfl

/-- Witness for C5 at concrete valid inputs and a concrete exception. -/
theorem run_actions_exception_spec_witness :
    (0 : ℤ) < 20 ∧ (0 : ℤ) < 20 ∧ (3 : ℤ) ≤ 20 ∧ (3 : ℤ) + 10 ≤ 16 ∧ (4 : ℤ) = 4 ∧
    (runEmitCurve 0 20 20 3 true (Except.error "hostError") =
      [HostEvent.reloadFile, HostEvent.openProgress, HostEvent.generate,
       HostEvent.stderrWrite, HostEvent.closeProgress,
       HostEvent.errorPopup somethingWentWrong] ∧
    runCurveFollow 0 20 3 10 16 true (Except.error "hostError") =
      [HostEvent.reloadFile, HostEvent.openProgress, HostEvent.generate,
       HostEvent.stderrWrite, HostEvent.closeProgress,
       HostEvent.errorPopup somethingWentWrong] ∧
    runPlaneEmit 0 20 20 3 true 4 (Except.error "hostError") =
      [HostEvent.reloadFile, HostEvent.openProgress, HostEvent.generate,
       HostEvent.stderrWrite, HostEvent.closeProgress,
       HostEvent.errorPopup somethingWentWrong] ∧
    runFlakeGen (Except.error "hostError") =
      [HostEvent.openProgress, HostEvent.generate, HostEvent.stderrWrite,
       HostEvent.closeProgress, HostEvent.errorPopup somethingWentWrong] ∧
    (runEmitCurve 0 20 20 3 true (Except.error "hostError")).countP isGenerate = 1 ∧
    (runCurveFollow 0 20 3 10 16 true (Except.error "hostError")).countP isGenerate = 1 ∧
    (runPlaneEmit 0 20 20 3 true 4 (Except.error "hostError")).countP isGenerate = 1 ∧
    (runFlakeGen (Except.error "hostError")).countP isGenerate = 1) :=
  ⟨by decide, by decide, by decide, by decide, by decide,
    run_actions_exception_spec 0 20 20 3 3 10 16 4 "hostError"
      (by decide) (by decide) (by decide) (by decide) (by decide)⟩

/-- C6: `runEmitCurve` aborts before any scene modification, opening only an
error popup, whenever `endFrame ≤ startFrame`, `lifeTime ≤ 0`,
`fadeOut > lifeTime`, or the source-curve text does not name a duplicable
curve; `runPlaneEmit` behaves the same for its checks, including rejecting a
source plane whose vertex count is not 4. -/
theorem validation_aborts_spec
    (startFrame endFrame lifeTime fadeOut vtxCount : ℤ)
    (curveDuplicable planeEvaluable : Bool)
    (gen : Except String (List String)) :
    ((endFrame ≤ startFrame ∨ lifeTime ≤ 0 ∨ lifeTime < fadeOut ∨
        curveDuplicable = false) →
      ∃ msg, runEmitCurve startFrame endFrame lifeTime fadeOut curveDuplicable gen =
        [HostEvent.errorPopup msg]) ∧
    ((endFrame ≤ startFrame ∨ lifeTime ≤ 0 ∨ lifeTime < fadeOut ∨
        planeEvaluable = false ∨ vtxCount ≠ 4) →
      ∃ msg, runPlaneEmit startFrame endFrame lifeTime fadeOut planeEvaluable vtxCount gen =
        [HostEvent.errorPopup msg]) := by
  constructor
  · intro hbad
    rw [runEmitCurve]
    by_cases h1 : endFrame ≤ startFrame
    · exact ⟨_, by rw [if_pos h1]⟩
    rw [if_neg h1]
    by_cases h2 : lifeTime ≤ 0
    · exact ⟨_, by rw [if_pos h2]⟩
    rw [if_neg h2]
    by_cases h3 : lifeTime < fadeOut
    · exact ⟨_, by rw [if_pos h3]⟩
    rw [if_neg h3]
    have h4 : curveDuplicable = false := by
      rcases hbad with h | h | h | h
      · exact absurd h h1
      · exact absurd h h2
      · exact absurd h h3
      · exact h
    exact ⟨_, by rw [if_pos h4]⟩
  · intro hbad
    rw [runPlaneEmit]
    by_cases h1 : endFrame ≤ startFrame
    · exact ⟨_, by rw [if_pos h1]⟩
    rw [if_neg h1]
    by_cases h2 : lifeTime ≤ 0
    · exact ⟨_, by rw [if_pos h2]⟩
    rw [if_neg h2]
    by_cases h3 : lifeTime < fadeOut
    · exact ⟨_, by rw [if_pos h3]⟩
    rw [if_neg h3]
    by_cases h4 : planeEvaluable = false
    · exact ⟨_, by rw [if_pos h4]⟩
    rw [if_neg h4]
    have h5 : vtxCount ≠ 4 := by
      rcases hbad with h | h | h | h | h
      · exact absurd h h1
      · exact absurd h h2
      · exact absurd h h3
      · exact absurd h h4
      · exact h
    exact ⟨_, by rw [if_pos h5]⟩

/-- Witness for C6: `runEmitCurve` with `endFrame ≤ startFrame` and
`runPlaneEmit` with vertex count `5 ≠ 4` both abort with only a popup. -/
theorem validation_aborts_spec_witness :
    (∃ msg, runEmitCurve 20 20 20 3 true (Except.ok []) =
      [HostEvent.errorPopup msg]) ∧
    (∃ msg, runPlaneEmit 0 20 20 3 true 5 (Except.ok []) =
      [HostEvent.errorPopup msg]) :=
  ⟨(validation_aborts_spec 20 20 20 3 5 true true (Except.ok [])).1
      (Or.inl (by decide)),
    (validation_aborts_spec 0 20 20 3 5 true true (Except.ok [])).2
      (Or.inr (Or.inr (Or.inr (Or.inr (by decide)))))⟩

end SnowFX

namespace SnowFX

/-! Section: curves.py, the spiral generators

Source: src/scripts/curves.py.  Each procedure creates a curve at the
origin, appends control vertices computed from a polar equation, and may
reverse the curve.  A curve is a list of CVs in order.  The transcendental
functions of the host (`math.pi`, `math.cos`, `math.sin`, `math.e**x`) are
abstracted as a constant `piK` and functions `cosK`, `sinK`, `expK` over an
arbitrary linearly ordered field, so every algebraic identity proved below
holds whatever values the host's float library returns for them.
Decimal constants of the source are written as fractions:
`0.25 = 1/4`, `1.8 = 9/5`, `0.1 = 1/10`. -/

variable {K : Type} [LinearOrderedField K]

/-- Radius of the hyperbolic spiral at index `i`:
`theta = i*(0.25*pi)`, `r = theta**(-1)`. -/
def hypRadius (piK : K) (i : ℕ) : K :=
  ((i : K) * (1 / 4 * piK))⁻¹

/-- CV appended by `hyperbolic` at loop index `i`:
`theta = i*(0.25*pi)`, `r = theta**(-1)`, point `(r*cos(theta), i*heightFrac, r*sin(theta))`. -/
def hypPoint (piK : K) (cosK sinK : K → K) (heightFrac : K) (i : ℕ) : K × K × K :=
  let theta : K := (i : K) * (1 / 4 * piK)
  let r : K := theta⁻¹
  (r * cosK theta, (i : K) * heightFrac, r * sinK theta)

/-- Curve built by `hyperbolic` before the optional reversal: the initial
CV `(0,0,0)`, the points for `i in range(1, cvNo+2)` with `cvNo = loops*8`
and `heightFrac = height/cvNo`, then `delete(curve.cv[0])`. -/
def hyperbolicBuilt (piK : K) (cosK sinK : K → K) (loops : ℕ) (height : K) :
    List (K × K × K) :=
  let cvNo := loops * 8
  let heightFrac := height / (cvNo : K)
  (((0 : K), (0 : K), (0 : K)) ::
    (List.range' 1 (cvNo + 1)).map (hypPoint piK cosK sinK heightFrac)).drop 1

/-- Embeds `hyperbolic(loops, spiralIn, height)`: the built curve, reversed
iff `spiralIn == False`. -/
def hyperbolic (piK : K) (cosK sinK : K → K) (loops : ℕ) (spiralIn : Bool)
    (height : K) : List (K × K × K) :=
  if spiralIn = false then (hyperbolicBuilt piK cosK sinK loops height).reverse
  else hyperbolicBuilt piK cosK sinK loops height

/-- CV appended by `logarithmic` at loop index `i`:
`theta = i*(0.25*pi)`, `r = 0.1*(1/(1.8*pi))*e**(growth*theta)`. -/
def logPoint (piK : K) (cosK sinK expK : K → K) (growth heightFrac : K) (i : ℕ) :
    K × K × K :=
  let theta : K := (i : K) * (1 / 4 * piK)
  let r : K := 1 / 10 * (1 / (9 / 5 * piK)) * expK (growth * theta)
  (r * cosK theta, (i : K) * heightFrac, r * sinK theta)

/-- Curve built by `logarithmic` before the optional reversal: the initial
CV `(0,0,0)` (never deleted) and the points for `i in range(1, cvNo+1)`. -/
def logarithmicBuilt (piK : K) (cosK sinK expK : K → K) (loops : ℕ)
    (growth height : K) : List (K × K × K) :=
  let cvNo := loops * 8
  let heightFrac := height / (cvNo : K)
  ((0 : K), (0 : K), (0 : K)) ::
    (List.range' 1 cvNo).map (logPoint piK cosK sinK expK growth heightFrac)

/-- Embeds `logarithmic(loops, spiralIn, growth, height)`: the built curve,
reversed iff `spiralIn == True`. -/
def logarithmic (piK : K) (cosK sinK expK : K → K) (loops : ℕ) (spiralIn : Bool)
    (growth height : K) : List (K × K × K) :=
  if spiralIn = true then
    (logarithmicBuilt piK cosK sinK expK loops growth height).reverse
  else logarithmicBuilt piK cosK sinK expK loops growth height

/-- CV appended by `archimedes` (and by the outward half of
`archimedesDouble`) at loop index `i`:
`theta = i*(0.25*pi)`, `r = (gaps/(1.8*pi))*theta`. -/
def arcPoint (piK : K) (cosK sinK : K → K) (gaps heightFrac : K) (i : ℕ) :
    K × K × K :=
  let theta : K := (i : K) * (1 / 4 * piK)
  let r : K := gaps / (9 / 5 * piK) * theta
  (r * cosK theta, (i : K) * heightFrac, r * sinK theta)

/-- Curve built by `archimedes` before the optional reversal: the initial
CV `(0,0,0)` (never deleted) and the points for `i in range(1, cvNo+1)`. -/
def archimedesBuilt (piK : K) (cosK sinK : K → K) (loops : ℕ) (gaps height : K) :
    List (K × K × K) :=
  let cvNo := loops * 8
  let heightFrac := height / (cvNo : K)
  ((0 : K), (0 : K), (0 : K)) ::
    (List.range' 1 cvNo).map (arcPoint piK cosK sinK gaps heightFrac)

/-- Embeds `archimedes(loops, spiralIn, gaps, height)`: the built curve,
reversed iff `spiralIn == True`. -/
def archimedes (piK : K) (cosK sinK : K → K) (loops : ℕ) (spiralIn : Bool)
    (gaps height : K) : List (K × K × K) :=
  if spiralIn = true then
    (archimedesBuilt piK cosK sinK loops gaps height).reverse
  else archimedesBuilt piK cosK sinK loops gaps height

/-- CV appended by the inward half of `archimedesDouble` at loop index `i`:
same `theta` and `r` as `arcPoint`, placed at height `height - i*heightFrac`
with the `z` coordinate negated:
`(r*cos(theta), height - i*heightFrac, -(r*sin(theta)))`. -/
def arcDoubIn (piK : K) (cosK sinK : K → K) (gaps heightFrac height : K) (i : ℕ) :
    K × K × K :=
  let theta : K := (i : K) * (1 / 4 * piK)
  let r : K := gaps / (9 / 5 * piK) * theta
  (r * cosK theta, height - (i : K) * heightFrac, -(r * sinK theta))

/-- CVs appended by `archimedesDouble` with `cvNo = int(loops*8)`: the
outward points for `i in range(1, cvNo/2+1)` then the inward points for
`i in reversed(range(0, cvNo/2))` (floor division, as in Python 2). -/
def archimedesDoubleAppended (piK : K) (cosK sinK : K → K) (loops : ℕ)
    (gaps height : K) : List (K × K × K) :=
  let cvNo := loops * 8
  let heightFrac := height / (cvNo : K)
  (List.range' 1 (cvNo / 2)).map (arcPoint piK cosK sinK gaps heightFrac) ++
    ((List.range (cvNo / 2)).reverse).map
      (arcDoubIn piK cosK sinK gaps heightFrac height)

/-- Curve built by `archimedesDouble` before the optional reversal: the
initial CV `(0,0,0)` (never deleted) and the appended points. -/
def archimedesDoubleBuilt (piK : K) (cosK sinK : K → K) (loops : ℕ)
    (gaps height : K) : List (K × K × K) :=
  ((0 : K), (0 : K), (0 : K)) ::
    archimedesDoubleAppended piK cosK sinK loops gaps height

/-- Embeds `archimedesDouble(loops, spiralDown, gaps, height)`: the built
curve, reversed iff `spiralDown == True`. -/
def archimedesDouble (piK : K) (cosK sinK : K → K) (loops : ℕ)
    (spiralDown : Bool) (gaps height : K) : List (K × K × K) :=
  if spiralDown = true then
    (archimedesDoubleBuilt piK cosK sinK loops gaps height).reverse
  else archimedesDoubleBuilt piK cosK sinK loops gaps height

/-- The curve `hyperbolic` builds (after the CV deletion) is the list of
spiral points for `i = 1 .. 8*loops + 1`. -/
theorem hyperbolicBuilt_eq (piK : K) (cosK sinK : K → K) (loops : ℕ)
    (height : K) :
    hyperbolicBuilt piK cosK sinK loops height =
      (List.range' 1 (8 * loops + 1)).map
        (hypPoint piK cosK sinK (height / ((8 * loops : ℕ) : K))) := by
  rw [Nat.mul_comm 8 loops]
  rfl

/-- C3: `hyperbolic(loops, spiralIn, height)` starts a curve at the origin
and appends CVs for `i = 1 .. 8*loops + 1` at `theta = i*pi/4` with position
`(cos(theta)/theta, i*height/(8*loops), sin(theta)/theta)` (radius
`r = 1/theta`), then deletes the initial origin CV, so the finished curve
consists of exactly `8*loops + 1` spiral points whose radii strictly
decrease with `i`. -/
theorem hyperbolic_spec (piK : K) (cosK sinK : K → K) (loops : ℕ)
    (height : K) (hloops : 1 ≤ loops) (hpi : 0 < piK) :
    hyperbolicBuilt piK cosK sinK loops height =
      ((((0 : K), (0 : K), (0 : K)) ::
        (List.range' 1 (8 * loops + 1)).map
          (hypPoint piK cosK sinK (height / ((8 * loops : ℕ) : K)))).drop 1) ∧
    (hyperbolicBuilt piK cosK sinK loops height).length = 8 * loops + 1 ∧
    (∀ j, j < 8 * loops + 1 →
      (hyperbolicBuilt piK cosK sinK loops height)[j]? =
        some
          (cosK (((j + 1 : ℕ) : K) * (1 / 4 * piK)) /
              (((j + 1 : ℕ) : K) * (1 / 4 * piK)),
            ((j + 1 : ℕ) : K) * (height / ((8 * loops : ℕ) : K)),
            sinK (((j + 1 : ℕ) : K) * (1 / 4 * piK)) /
              (((j + 1 : ℕ) : K) * (1 / 4 * piK)))) ∧
    (∀ i heightFrac,
      (hypPoint piK cosK sinK heightFrac i).1 =
        hypRadius piK i * cosK ((i : K) * (1 / 4 * piK)) ∧
      (hypPoint piK cosK sinK heightFrac i).2.2 =
        hypRadius piK i * sinK ((i : K) * (1 / 4 * piK))) ∧
    (∀ i, 1 ≤ i → hypRadius piK (i + 1) < hypRadius piK i) := by
  have hb := hyperbolicBuilt_eq piK cosK sinK loops height
  refine ⟨by rw [hb]; rfl, by rw [hb]; simp, ?_, fun i heightFrac => ⟨rfl, rfl⟩, ?_⟩
  · intro j hj
    rw [hb]
    have hj' : j < ((List.range' 1 (8 * loops + 1)).map
        (hypPoint piK cosK sinK (height / ((8 * loops : ℕ) : K)))).length := by
      simpa using hj
    rw [List.getElem?_eq_getElem hj']
    congr 1
    rw [List.getElem_map, List.getElem_range',
      show 1 + 1 * j = j + 1 by omega]
    simp only [hypPoint]
    simp [div_eq_mul_inv, mul_comm]
  · intro i hi
    have hq : (0 : K) < 1 / 4 * piK := by positivity
    have hip : (0 : K) < (i : K) := by exact_mod_cast hi
    have hcast : (i : K) < ((i + 1 : ℕ) : K) := by
      exact_mod_cast Nat.lt_succ_self i
    exact inv_strictAnti₀ (mul_pos hip hq) (mul_lt_mul_of_pos_right hcast hq)

/-- Witness for C3 over `ℚ` with `piK = 3`, one loop. -/
theorem hyperbolic_spec_witness :
    1 ≤ 1 ∧ (0 : ℚ) < 3 ∧
    (hyperbolicBuilt (3 : ℚ) (fun q => q) (fun q => q) 1 0 =
      ((((0 : ℚ), (0 : ℚ), (0 : ℚ)) ::
        (List.range' 1 (8 * 1 + 1)).map
          (hypPoint (3 : ℚ) (fun q => q) (fun q => q)
            ((0 : ℚ) / ((8 * 1 : ℕ) : ℚ)))).drop 1) ∧
    (hyperbolicBuilt (3 : ℚ) (fun q => q) (fun q => q) 1 0).length = 8 * 1 + 1 ∧
    (∀ j, j < 8 * 1 + 1 →
      (hyperbolicBuilt (3 : ℚ) (fun q => q) (fun q => q) 1 0)[j]? =
        some
          ((fun q => q) (((j + 1 : ℕ) : ℚ) * (1 / 4 * 3)) /
              (((j + 1 : ℕ) : ℚ) * (1 / 4 * 3)),
            ((j + 1 : ℕ) : ℚ) * ((0 : ℚ) / ((8 * 1 : ℕ) : ℚ)),
            (fun q => q) (((j + 1 : ℕ) : ℚ) * (1 / 4 * 3)) /
              (((j + 1 : ℕ) : ℚ) * (1 / 4 * 3)))) ∧
    (∀ i heightFrac,
      (hypPoint (3 : ℚ) (fun q => q) (fun q => q) heightFrac i).1 =
        hypRadius (3 : ℚ) i * (fun q => q) ((i : ℚ) * (1 / 4 * 3)) ∧
      (hypPoint (3 : ℚ) (fun q => q) (fun q => q) heightFrac i).2.2 =
        hypRadius (3 : ℚ) i * (fun q => q) ((i : ℚ) * (1 / 4 * 3))) ∧
    (∀ i, 1 ≤ i → hypRadius (3 : ℚ) (i + 1) < hypRadius (3 : ℚ) i)) :=
  ⟨le_rfl, by norm_num,
    hyperbolic_spec (3 : ℚ) (fun q => q) (fun q => q) 1 0 le_rfl (by norm_num)⟩

/-- C4: each spiral procedure creates one curve, appends its computed
points, and reverses the curve exactly when its direction flag selects
reversal: `hyperbolic` reverses iff `spiralIn` is `False`, `logarithmic`
and `archimedes` reverse iff `spiralIn` is `True`, and `archimedesDouble`
reverses iff `spiralDown` is `True`; otherwise the curve stays in
construction order. -/
theorem spiral_reversal_spec (piK : K) (cosK sinK expK : K → K) (loops : ℕ)
    (growth gaps height : K) :
    hyperbolic piK cosK sinK loops false height =
      (hyperbolicBuilt piK cosK sinK loops height).reverse ∧
    hyperbolic piK cosK sinK loops true height =
      hyperbolicBuilt piK cosK sinK loops height ∧
    logarithmic piK cosK sinK expK loops true growth height =
      (logarithmicBuilt piK cosK sinK expK loops growth height).reverse ∧
    logarithmic piK cosK sinK expK loops false growth height =
      logarithmicBuilt piK cosK sinK expK loops growth height ∧
    archimedes piK cosK sinK loops true gaps height =
      (archimedesBuilt piK cosK sinK loops gaps height).reverse ∧
    archimedes piK cosK sinK loops false gaps height =
      archimedesBuilt piK cosK sinK loops gaps height ∧
    archimedesDouble piK cosK sinK loops true gaps height =
      (archimedesDoubleBuilt piK cosK sinK loops gaps height).reverse ∧
    archimedesDouble piK cosK sinK loops false gaps height =
      archimedesDoubleBuilt piK cosK sinK loops gaps height ∧
    logarithmicBuilt piK cosK sinK expK loops growth height =
      ((0 : K), (0 : K), (0 : K)) ::
        (List.range' 1 (loops * 8)).map
          (logPoint piK cosK sinK expK growth (height / ((loops * 8 : ℕ) : K))) ∧
    archimedesBuilt piK cosK sinK loops gaps height =
      ((0 : K), (0 : K), (0 : K)) ::
        (List.range' 1 (loops * 8)).map
          (arcPoint piK cosK sinK gaps (height / ((loops * 8 : ℕ) : K))) ∧
    archimedesDoubleBuilt piK cosK sinK loops gaps height =
      ((0 : K), (0 : K), (0 : K)) ::
        archimedesDoubleAppended piK cosK sinK loops gaps height :=
  ⟨rfl, rfl, rfl, rfl, rfl, rfl, rfl, rfl, rfl, rfl, rfl⟩

/-- C7: `archimedesDouble(loops, spiralDown, gaps, height)` with
`cvNo = 8*loops` appends first the outward points for `i = 1 .. cvNo/2` at
`(r*cos(theta), i*heightFrac, r*sin(theta))` with `theta = i*pi/4` and
`r = (gaps/(1.8*pi))*theta`, then the inward points for `i = cvNo/2 - 1`
down to `0` at `(r*cos(theta), height - i*heightFrac, -r*sin(theta))`;
every inward point is the z-negated mirror of the outward formula at the
same index placed at the complementary height, and the final appended CV is
`(0, height, 0)`. -/
theorem archimedesDouble_points_spec (piK : K) (cosK sinK : K → K)
    (loops : ℕ) (gaps height : K) (hloops : 1 ≤ loops) :
    archimedesDoubleAppended piK cosK sinK loops gaps height =
      (List.range' 1 (4 * loops)).map
        (arcPoint piK cosK sinK gaps (height / ((8 * loops : ℕ) : K))) ++
      ((List.range (4 * loops)).reverse).map
        (arcDoubIn piK cosK sinK gaps (height / ((8 * loops : ℕ) : K)) height) ∧
    (∀ (i : ℕ) (heightFrac : K),
      arcPoint piK cosK sinK gaps heightFrac i =
        (gaps / (9 / 5 * piK) * ((i : K) * (1 / 4 * piK)) *
            cosK ((i : K) * (1 / 4 * piK)),
          (i : K) * heightFrac,
          gaps / (9 / 5 * piK) * ((i : K) * (1 / 4 * piK)) *
            sinK ((i : K) * (1 / 4 * piK)))) ∧
    (∀ (i : ℕ) (heightFrac : K),
      arcDoubIn piK cosK sinK gaps heightFrac height i =
        ((arcPoint piK cosK sinK gaps heightFrac i).1,
          height - (i : K) * heightFrac,
          -((arcPoint piK cosK sinK gaps heightFrac i).2.2))) ∧
    (archimedesDoubleAppended piK cosK sinK loops gaps height).getLast? =
      some ((0 : K), height, (0 : K)) := by
  have happ : archimedesDoubleAppended piK cosK sinK loops gaps height =
      (List.range' 1 (4 * loops)).map
        (arcPoint piK cosK sinK gaps (height / ((8 * loops : ℕ) : K))) ++
      ((List.range (4 * loops)).reverse).map
        (arcDoubIn piK cosK sinK gaps (height / ((8 * loops : ℕ) : K)) height) := by
    rw [show (4 : ℕ) * loops = loops * 8 / 2 by omega,
      show ((8 * loops : ℕ) : K) = ((loops * 8 : ℕ) : K) by rw [Nat.mul_comm]]
    rfl
  refine ⟨happ, fun i heightFrac => rfl, fun i heightFrac => rfl, ?_⟩
  have hlast : (((List.range (4 * loops)).reverse).map
      (arcDoubIn piK cosK sinK gaps (height / ((8 * loops : ℕ) : K)) height)).getLast? =
      some (arcDoubIn piK cosK sinK gaps (height / ((8 * loops : ℕ) : K)) height 0) := by
    obtain ⟨m, hm⟩ : ∃ m, 4 * loops = m + 1 := ⟨4 * loops - 1, by omega⟩
    rw [hm, List.map_reverse, List.getLast?_reverse, List.range_succ_eq_map]
    rfl
  rw [happ, List.getLast?_append, hlast]
  show some (arcDoubIn piK cosK sinK gaps (height / ((8 * loops : ℕ) : K)) height 0) =
    some ((0 : K), height, (0 : K))
  simp [arcDoubIn]

/-- Witness for C7 over `ℚ` with `piK = 3`, one loop. -/
theorem archimedesDouble_points_spec_witness :
    1 ≤ 1 ∧
    (archimedesDoubleAppended (3 : ℚ) (fun q => q) (fun q => q) 1 1 0 =
      (List.range' 1 (4 * 1)).map
        (arcPoint (3 : ℚ) (fun q => q) (fun q => q) 1 ((0 : ℚ) / ((8 * 1 : ℕ) : ℚ))) ++
      ((List.range (4 * 1)).reverse).map
        (arcDoubIn (3 : ℚ) (fun q => q) (fun q => q) 1 ((0 : ℚ) / ((8 * 1 : ℕ) : ℚ)) 0) ∧
    (∀ (i : ℕ) (heightFrac : ℚ),
      arcPoint (3 : ℚ) (fun q => q) (fun q => q) 1 heightFrac i =
        ((1 : ℚ) / (9 / 5 * 3) * ((i : ℚ) * (1 / 4 * 3)) *
            (fun q => q) ((i : ℚ) * (1 / 4 * 3)),
          (i : ℚ) * heightFrac,
          (1 : ℚ) / (9 / 5 * 3) * ((i : ℚ) * (1 / 4 * 3)) *
            (fun q => q) ((i : ℚ) * (1 / 4 * 3)))) ∧
    (∀ (i : ℕ) (heightFrac : ℚ),
      arcDoubIn (3 : ℚ) (fun q => q) (fun q => q) 1 heightFrac 0 i =
        ((arcPoint (3 : ℚ) (fun q => q) (fun q => q) 1 heightFrac i).1,
          (0 : ℚ) - (i : ℚ) * heightFrac,
          -((arcPoint (3 : ℚ) (fun q => q) (fun q => q) 1 heightFrac i).2.2))) ∧
    (archimedesDoubleAppended (3 : ℚ) (fun q => q) (fun q => q) 1 1 0).getLast? =
      some ((0 : ℚ), (0 : ℚ), (0 : ℚ))) :=
  ⟨le_rfl,
    archimedesDouble_points_spec (3 : ℚ) (fun q => q) (fun q => q) 1 1 0 le_rfl⟩

end SnowFX
